import Mathlib

/-!
Verification of the CVFlo backend (Django, `src/backend/`) against its
natural-language specification.  Python code is shallowly embedded:
JSON values become an inductive `Json` type, Python dicts become
association lists, the Django cache becomes an explicit function from
keys to values, and each view/service method becomes a pure Lean
function over that state.  Machine details that the claims do not touch
(the WeasyPrint engine, the real database driver, wall-clock time) are
passed in as explicit parameters.
-/

namespace CVFlo

/-! ## JSON values

Python's `dict`/`list`/`str`/`int`/`bool`/`None` universe as stored in
`CVProfile.cv_content` and passed through the request bodies.  Objects
keep insertion order, exactly like Python dicts. -/

inductive Json where
  | null
  | bool (b : Bool)
  | num (n : Int)
  | str (s : String)
  | arr (xs : List Json)
  | obj (kvs : List (String × Json))
deriving Repr

/-- Python truthiness (`bool(x)`) on JSON values: `None`, `False`, `0`,
`""`, `[]` and `{}` are falsy. -/
def jsonTruthy : Json → Bool
  | .null => false
  | .bool b => b
  | .num n => n != 0
  | .str s => !s.isEmpty
  | .arr xs => !xs.isEmpty
  | .obj kvs => !kvs.isEmpty

/-- `d[k]` lookup on an association list (first match wins, as in a
Python dict, which cannot hold duplicate keys anyway). -/
def lookupKV {α : Type} (kvs : List (String × α)) (k : String) : Option α :=
  match kvs with
  | [] => none
  | kv :: rest => if kv.1 == k then some kv.2 else lookupKV rest k

/-- `d.get(k, default)` on a JSON object; returns `default` when the
value is not an object at all (callers that would raise instead are
modelled separately). -/
def jsonGet (j : Json) (k : String) : Option Json :=
  match j with
  | .obj kvs => lookupKV kvs k
  | _ => none

/-- `d[k] = v` on a Python dict: overwrite in place when the key exists
(keeping its position), else append at the end. -/
def setKey (kvs : List (String × Json)) (k : String) (v : Json) : List (String × Json) :=
  if kvs.any (fun kv => kv.1 == k) then
    kvs.map (fun kv => if kv.1 == k then (k, v) else kv)
  else
    kvs ++ [(k, v)]

/-! ## CV Profile store (`apps/cv_builder/models.py` + views)

`CVProfile` rows keyed by `user_id`; the application enforces one
profile per user via `get_or_create(user_id=...)`, so the store is a
partial map from user id to profile. -/

structure CVProfile where
  user_id : Nat
  template_name : String
  cv_content : Json
  updated_at : Nat
deriving Repr

/-- The CV-profile table, keyed by `user_id`. -/
def Store : Type := Nat → Option CVProfile

def Store.set (s : Store) (uid : Nat) (p : CVProfile) : Store :=
  fun u => if u == uid then some p else s u

/-- `request.user.id if request.user.is_authenticated else 1`
(`CVDataView`, all methods). -/
def resolveUserId (auth : Option Nat) : Nat := auth.getD 1

/-- Response of `CVDataView.get` (`views.py:39-74`). -/
structure GetCVResponse where
  cv_data : Option Json
  visibility : Option Json
  selected_template : String
  last_updated : Option Nat
deriving Repr

/-- `CVDataView.get`: return the stored content, its nested visibility
map, and template; nulls plus the default template when absent. -/
def CVDataView.get (store : Store) (auth : Option Nat) : GetCVResponse :=
  match store (resolveUserId auth) with
  | some p =>
      { cv_data := some p.cv_content
        visibility := some ((jsonGet p.cv_content "visibility").getD (.obj []))
        selected_template := p.template_name
        last_updated := some p.updated_at }
  | none =>
      { cv_data := none
        visibility := none
        selected_template := "classic-0"
        last_updated := none }

/-- Responses of `CVDataView.post` / `CVDataView.put`. -/
inductive SaveCVResponse where
  | ok (id : Nat) (last_updated : Nat)
  | badRequest (error : String)
  | notFound (error : String)
deriving Repr

def SaveCVResponse.status : SaveCVResponse → Nat
  | .ok _ _ => 200
  | .badRequest _ => 400
  | .notFound _ => 404

/-- `CVDataView.post` (`views.py:76-132`): requires truthy `cv_data`,
folds the visibility map into `cv_content['visibility']`, then
get-or-create keyed by user id (replacing content and template on the
update path). -/
def CVDataView.post (store : Store) (auth : Option Nat)
    (cv_data : Option Json) (visibility : Option Json)
    (selected_template : Option String) (now : Nat) :
    SaveCVResponse × Store :=
  let user_id := resolveUserId auth
  let vis := visibility.getD (.obj [])
  let tpl := selected_template.getD "classic-0"
  match cv_data with
  | none => (.badRequest "CV data is required", store)
  | some cd =>
    if !jsonTruthy cd then (.badRequest "CV data is required", store)
    else
      -- cv_content = cv_data.copy() if isinstance(cv_data, dict) else {}
      let base : List (String × Json) := match cd with | .obj kvs => kvs | _ => []
      -- cv_content['visibility'] = visibility
      let cv_content : Json := .obj (setKey base "visibility" vis)
      match store user_id with
      | none =>
          let p : CVProfile :=
            { user_id := user_id, template_name := tpl
              cv_content := cv_content, updated_at := now }
          (.ok user_id now, store.set user_id p)
      | some p =>
          let p' : CVProfile :=
            { p with cv_content := cv_content, template_name := tpl, updated_at := now }
          (.ok user_id now, store.set user_id p')

/-- `CVDataView.put` (`views.py:134-185`): 404 without an existing
profile; otherwise shallow-merge `cv_data` into the content, overwrite
the visibility sub-map and template when supplied and truthy. -/
def CVDataView.put (store : Store) (auth : Option Nat)
    (cv_data : Option Json) (visibility : Option Json)
    (selected_template : Option String) (now : Nat) :
    SaveCVResponse × Store :=
  let user_id := resolveUserId auth
  match store user_id with
  | none => (.notFound "CV data not found. Use POST to create new CV data.", store)
  | some p =>
      let content0 : List (String × Json) :=
        match p.cv_content with | .obj kvs => kvs | _ => []
      -- if cv_data: cv_profile.cv_content.update(cv_data)
      let content1 : List (String × Json) :=
        match cv_data with
        | some (.obj kvs) =>
            if !kvs.isEmpty then kvs.foldl (fun acc kv => setKey acc kv.1 kv.2) content0
            else content0
        | _ => content0
      -- if visibility: cv_profile.cv_content['visibility'] = visibility
      let content2 : List (String × Json) :=
        match visibility with
        | some v => if jsonTruthy v then setKey content1 "visibility" v else content1
        | none => content1
      let tpl := match selected_template with
        | some t => if !t.isEmpty then t else p.template_name
        | none => p.template_name
      let p' : CVProfile :=
        { p with cv_content := .obj content2, template_name := tpl, updated_at := now }
      (.ok user_id now, store.set user_id p')

/-- C1: Round-trip of the CV data API: for any user with or without an
existing profile, POSTing `{cv_data: {"summary": "x"}, visibility:
{"summary": true}, selected_template: "modern-0"}` and then GETting as
the same user returns a cv_data content document containing `summary`
with value `"x"` and a visibility sub-map with `summary` mapped to
`true`, and `selected_template` equal to `"modern-0"`. -/
theorem C1_cv_data_roundtrip (store : Store) (auth : Option Nat) (now : Nat) :
    let cvX : Json := .obj [("summary", .str "x")]
    let visX : Json := .obj [("summary", .bool true)]
    let store2 := (CVDataView.post store auth (some cvX) (some visX) (some "modern-0") now).2
    let g := CVDataView.get store2 auth
    (∃ content, g.cv_data = some content ∧ jsonGet content "summary" = some (.str "x")) ∧
    (∃ vis, g.visibility = some vis ∧ jsonGet vis "summary" = some (.bool true)) ∧
    g.selected_template = "modern-0" := by
  unfold CVDataView.post CVDataView.get
  cases h : store (resolveUserId auth) <;>
    simp [h, jsonTruthy, setKey, lookupKV, Store.set, jsonGet]

/-- C5: For every user with no existing CV Profile row, PUT returns
HTTP 404 with an error directing the caller to use POST instead, and
the profile store is left unchanged (in particular no profile is
created for that user). -/
theorem C5_put_without_profile_404 (store : Store) (auth : Option Nat)
    (cv_data visibility : Option Json) (selected_template : Option String) (now : Nat)
    (h : store (resolveUserId auth) = none) :
    CVDataView.put store auth cv_data visibility selected_template now =
      (.notFound "CV data not found. Use POST to create new CV data.", store) ∧
    (CVDataView.put store auth cv_data visibility selected_template now).1.status = 404 := by
  unfold CVDataView.put
  simp [h, SaveCVResponse.status]

/-- Witness for C5 at a concrete empty store and anonymous caller. -/
theorem C5_put_without_profile_404_witness :
    CVDataView.put (fun _ => none) none none none none 0 =
      (.notFound "CV data not found. Use POST to create new CV data.", fun _ => none) :=
  (C5_put_without_profile_404 (fun _ => none) none none none none 0 rfl).1

/-! ## String containment (Python's `sub in s`) -/

/-- `listStarts pre l` : `pre` is a leading segment of `l`. -/
def listStarts : List Char → List Char → Bool
  | [], _ => true
  | _ :: _, [] => false
  | a :: as, b :: bs => a == b && listStarts as bs

/-- `containsList sub l` : `sub` occurs contiguously inside `l`. -/
def containsList (sub : List Char) : List Char → Bool
  | [] => sub.isEmpty
  | c :: rest => listStarts sub (c :: rest) || containsList sub rest

/-- Python's `sub in s` on strings. -/
def pyStrIn (sub s : String) : Bool := containsList sub.data s.data

/-- Python's `s.startswith(pre)` on strings. -/
def pyStartsWith (s pre : String) : Bool := listStarts pre.data s.data

/-! ## Rate limiting (`apps/core/middleware/rate_limiting.py`) -/

structure RateLimit where
  requests : Nat
  window : Nat
deriving Repr, DecidableEq

/-- `ENHANCED_RATE_LIMITS` from `cvflo/settings.py:338-344`, also the
fallback table inlined in `EnhancedRateLimitMiddleware.__init__`. -/
def ENHANCED_RATE_LIMITS : List (String × RateLimit) :=
  [("default", ⟨100, 3600⟩),
   ("pdf_generation", ⟨10, 900⟩),
   ("preview_generation", ⟨100, 300⟩),
   ("api_general", ⟨1000, 3600⟩),
   ("admin_api", ⟨500, 3600⟩)]

/-- `self.rate_limits.get(limit_category, self.rate_limits['default'])`
(`process_request`, line 51). -/
def getRateLimit (category : String) : RateLimit :=
  (lookupKV ENHANCED_RATE_LIMITS category).getD ⟨100, 3600⟩

/-- `_should_skip_rate_limiting` (lines 102-105). -/
def should_skip_rate_limiting (path : String) : Bool :=
  ["/admin/", "/health/", "/static/", "/media/"].any (fun p => pyStartsWith path p)

/-- `_get_rate_limit_category` (lines 107-124). -/
def get_rate_limit_category (path : String) : String :=
  if pyStrIn "/api/pdf/generate-pdf" path || pyStrIn "/api/pdf/generate-pdf-from-html" path then
    "pdf_generation"
  else if pyStrIn "/api/pdf/generate-preview" path then
    "preview_generation"
  else if pyStartsWith path "/api/" then
    "api_general"
  else
    "default"

/-- `_get_client_identifier` (lines 126-139). -/
def get_client_identifier (auth : Option Nat) (xForwardedFor remoteAddr : Option String) : String :=
  match auth with
  | some uid => "user:" ++ toString uid
  | none =>
    match xForwardedFor with
    | some xff => "ip:" ++ ((xff.splitOn ",").headD xff).trim
    | none => "ip:" ++ remoteAddr.getD "unknown"

/-- The Django cache, restricted to the integer counters the
rate limiter stores (TTL expiry is the passage of time, which the
single-window claims never cross, so it is not modelled). -/
def RLCache : Type := String → Option Nat

def RLCache.getD (c : RLCache) (k : String) (d : Nat) : Nat := (c k).getD d

def RLCache.set (c : RLCache) (k : String) (v : Nat) : RLCache :=
  fun k2 => if k2 == k then some v else c k2

def rlKey (category clientId : String) (window_index : Nat) : String :=
  "rate_limit:" ++ category ++ ":" ++ clientId ++ ":" ++ toString window_index

/-- `_check_rate_limit` (lines 141-171): fixed-window check returning
`(is_allowed, remaining, reset_time)` plus the updated cache. -/
def check_rate_limit (cache : RLCache) (clientId category : String)
    (rate_limit : RateLimit) (now : Nat) : (Bool × Nat × Nat) × RLCache :=
  let window := rate_limit.window
  let limit := rate_limit.requests
  let current_window := now / window
  let cache_key := rlKey category clientId current_window
  let current_count := cache.getD cache_key 0
  if current_count ≥ limit then
    ((false, 0, (current_window + 1) * window), cache)
  else
    let cache2 := cache.set cache_key (current_count + 1)
    ((true, limit - (current_count + 1), (current_window + 1) * window), cache2)

/-- The 429 JSON body built in `process_request` (lines 62-69). -/
structure RateLimitBody where
  error : String
  limit : Nat
  window : Nat
  remaining : Nat
  reset_time : Nat
  retry_after : Int
deriving Repr, DecidableEq

/-- Outcome of `process_request` (lines 40-84): either the request
passes (optionally carrying `request.rate_limit_info`) or it is
rejected with status 429 and the JSON body. -/
inductive RLOutcome where
  | skipped
  | allowed (limit remaining reset_time window : Nat)
  | rejected429 (body : RateLimitBody)
deriving Repr, DecidableEq

/-- `EnhancedRateLimitMiddleware.process_request`. -/
def process_request (cache : RLCache) (clientId path : String) (now : Nat) :
    RLOutcome × RLCache :=
  if should_skip_rate_limiting path then (.skipped, cache)
  else
    let limit_category := get_rate_limit_category path
    let rate_limit := getRateLimit limit_category
    let res := check_rate_limit cache clientId limit_category rate_limit now
    match res with
    | ((false, _, reset_time), cache2) =>
        (.rejected429
          { error := "Rate limit exceeded"
            limit := rate_limit.requests
            window := rate_limit.window
            remaining := 0
            reset_time := reset_time
            retry_after := (reset_time : Int) - (now : Int) }, cache2)
    | ((true, remaining, reset_time), cache2) =>
        (.allowed rate_limit.requests remaining reset_time rate_limit.window, cache2)

/-- Issue a sequence of requests (same client, same path) at the given
timestamps, threading the cache. -/
def issueRequests (clientId path : String) : RLCache → List Nat → List RLOutcome × RLCache
  | cache, [] => ([], cache)
  | cache, t :: ts =>
      let r := process_request cache clientId path t
      let rest := issueRequests clientId path r.2 ts
      (r.1 :: rest.1, rest.2)

def RLOutcome.isAllowed : RLOutcome → Bool
  | .allowed _ _ _ _ => true
  | _ => false

/-- A non-skipped request under the limit is allowed and bumps the
window counter by one (`_check_rate_limit`, else branch). -/
theorem process_request_step (cache : RLCache) (clientId path : String) (t w : Nat)
    (hskip : should_skip_rate_limiting path = false)
    (hwin : t / (getRateLimit (get_rate_limit_category path)).window = w)
    (hlt : cache.getD (rlKey (get_rate_limit_category path) clientId w) 0 <
           (getRateLimit (get_rate_limit_category path)).requests) :
    process_request cache clientId path t =
      (.allowed (getRateLimit (get_rate_limit_category path)).requests
         ((getRateLimit (get_rate_limit_category path)).requests -
           (cache.getD (rlKey (get_rate_limit_category path) clientId w) 0 + 1))
         ((w + 1) * (getRateLimit (get_rate_limit_category path)).window)
         (getRateLimit (get_rate_limit_category path)).window,
       cache.set (rlKey (get_rate_limit_category path) clientId w)
         (cache.getD (rlKey (get_rate_limit_category path) clientId w) 0 + 1)) := by
  unfold process_request check_rate_limit
  rw [hskip]
  simp only [Bool.false_eq_true, if_false, hwin]
  rw [if_neg (Nat.not_le.mpr hlt)]

/-- A non-skipped request at or over the limit is rejected with the 429
body and leaves the cache untouched (`_check_rate_limit`, then branch,
plus the `JsonResponse` in `process_request`). -/
theorem process_request_reject (cache : RLCache) (clientId path : String) (t w : Nat)
    (hskip : should_skip_rate_limiting path = false)
    (hwin : t / (getRateLimit (get_rate_limit_category path)).window = w)
    (hge : (getRateLimit (get_rate_limit_category path)).requests ≤
           cache.getD (rlKey (get_rate_limit_category path) clientId w) 0) :
    process_request cache clientId path t =
      (.rejected429
        { error := "Rate limit exceeded"
          limit := (getRateLimit (get_rate_limit_category path)).requests
          window := (getRateLimit (get_rate_limit_category path)).window
          remaining := 0
          reset_time := (w + 1) * (getRateLimit (get_rate_limit_category path)).window
          retry_after := (((w + 1) * (getRateLimit (get_rate_limit_category path)).window : Nat) : Int)
            - (t : Int) }, cache) := by
  unfold process_request check_rate_limit
  rw [hskip]
  simp only [Bool.false_eq_true, if_false, hwin]
  rw [if_pos hge]

/-- Helper for C2: a run of same-window requests that stays within the
limit is fully allowed and the stored counter goes up by one per
request. -/
theorem issueRequests_under_limit (clientId path : String) (w : Nat)
    (hskip : should_skip_rate_limiting path = false) :
    ∀ (times : List Nat) (cache : RLCache),
    (∀ t ∈ times, t / (getRateLimit (get_rate_limit_category path)).window = w) →
    cache.getD (rlKey (get_rate_limit_category path) clientId w) 0 + times.length ≤
      (getRateLimit (get_rate_limit_category path)).requests →
    (∀ r ∈ (issueRequests clientId path cache times).1, r.isAllowed = true) ∧
    ((issueRequests clientId path cache times).2).getD
        (rlKey (get_rate_limit_category path) clientId w) 0 =
      cache.getD (rlKey (get_rate_limit_category path) clientId w) 0 + times.length := by
  intro times
  induction times with
  | nil => intro cache _ _; simp [issueRequests]
  | cons t ts ih =>
    intro cache hw hle
    have hwt : t / (getRateLimit (get_rate_limit_category path)).window = w := hw t (by simp)
    have hlt : cache.getD (rlKey (get_rate_limit_category path) clientId w) 0 <
        (getRateLimit (get_rate_limit_category path)).requests := by
      simp at hle; omega
    have hstep := process_request_step cache clientId path t w hskip hwt hlt
    have hset : (cache.set (rlKey (get_rate_limit_category path) clientId w)
        (cache.getD (rlKey (get_rate_limit_category path) clientId w) 0 + 1)).getD
        (rlKey (get_rate_limit_category path) clientId w) 0 =
        cache.getD (rlKey (get_rate_limit_category path) clientId w) 0 + 1 := by
      simp [RLCache.set, RLCache.getD]
    have hrest := ih (cache.set (rlKey (get_rate_limit_category path) clientId w)
        (cache.getD (rlKey (get_rate_limit_category path) clientId w) 0 + 1))
      (fun t' ht' => hw t' (by simp [ht']))
      (by rw [hset]; simp at hle ⊢; omega)
    refine ⟨?_, ?_⟩
    · intro r hr
      simp only [issueRequests, hstep, List.mem_cons] at hr
      rcases hr with h | h
      · rw [h]; rfl
      · exact hrest.1 r h
    · simp only [issueRequests, hstep]
      rw [hrest.2, hset]
      simp [List.length_cons]
      omega

/-- C2: Fixed-window rate limiting: with window index
`w = floor(t / window)` and counter key
`rate_limit:<category>:<client id>:<w>`, issuing `limit` requests in
one window (starting from a zero counter) leaves every request allowed
with the stored count incremented each time (final count = limit), and
the `(limit+1)`-th request in the same window is rejected with HTTP 429
and body `remaining = 0`, `reset_time = (w+1) * window`,
`retry_after = reset_time - now`. -/
theorem C2_fixed_window_rate_limit (clientId path : String) (times : List Nat)
    (tLast w : Nat) (cache0 : RLCache)
    (hskip : should_skip_rate_limiting path = false)
    (hlen : times.length = (getRateLimit (get_rate_limit_category path)).requests)
    (hw : ∀ t ∈ times, t / (getRateLimit (get_rate_limit_category path)).window = w)
    (hlast : tLast / (getRateLimit (get_rate_limit_category path)).window = w)
    (h0 : cache0.getD (rlKey (get_rate_limit_category path) clientId w) 0 = 0) :
    (∀ r ∈ (issueRequests clientId path cache0 times).1, r.isAllowed = true) ∧
    ((issueRequests clientId path cache0 times).2).getD
        (rlKey (get_rate_limit_category path) clientId w) 0 =
      (getRateLimit (get_rate_limit_category path)).requests ∧
    process_request (issueRequests clientId path cache0 times).2 clientId path tLast =
      (.rejected429
        { error := "Rate limit exceeded"
          limit := (getRateLimit (get_rate_limit_category path)).requests
          window := (getRateLimit (get_rate_limit_category path)).window
          remaining := 0
          reset_time := (w + 1) * (getRateLimit (get_rate_limit_category path)).window
          retry_after := (((w + 1) * (getRateLimit (get_rate_limit_category path)).window : Nat) : Int)
            - (tLast : Int) },
       (issueRequests clientId path cache0 times).2) := by
  have hrun := issueRequests_under_limit clientId path w hskip times cache0 hw (by omega)
  have hcount : ((issueRequests clientId path cache0 times).2).getD
      (rlKey (get_rate_limit_category path) clientId w) 0 =
      (getRateLimit (get_rate_limit_category path)).requests := by
    rw [hrun.2, h0, Nat.zero_add, hlen]
  exact ⟨hrun.1, hcount,
    process_request_reject _ clientId path tLast w hskip hlast (by rw [hcount])⟩

/-- Witness for C2: the `pdf_generation` category (limit 10, window
900s) on `/api/pdf/generate-pdf/`, 10 requests at t=100 then one at
t=200, all inside window index 0. -/
theorem C2_fixed_window_rate_limit_witness :
    process_request
        (issueRequests "user:1" "/api/pdf/generate-pdf/" (fun _ => none)
          (List.replicate 10 100)).2 "user:1" "/api/pdf/generate-pdf/" 200 =
      (.rejected429
        { error := "Rate limit exceeded", limit := 10, window := 900, remaining := 0,
          reset_time := 900, retry_after := 700 },
       (issueRequests "user:1" "/api/pdf/generate-pdf/" (fun _ => none)
          (List.replicate 10 100)).2) := by
  have h := C2_fixed_window_rate_limit "user:1" "/api/pdf/generate-pdf/"
    (List.replicate 10 100) 200 0 (fun _ => none)
    (by decide) (by decide) (by decide) (by decide) rfl
  simpa using h.2.2

/-- Prefix-of-prefix transitivity for `listStarts`. -/
theorem listStarts_trans : ∀ (a b l : List Char),
    listStarts a b = true → listStarts b l = true → listStarts a l = true
  | [], _, _, _, _ => rfl
  | _ :: _, [], _, hab, _ => by simp [listStarts] at hab
  | _ :: _, _ :: _, [], _, hbl => by simp [listStarts] at hbl
  | a :: as, b :: bs, c :: cs, hab, hbl => by
    simp only [listStarts, Bool.and_eq_true, beq_iff_eq] at hab hbl ⊢
    exact ⟨hab.1.trans hbl.1, listStarts_trans as bs cs hab.2 hbl.2⟩

/-- If `a` is a leading segment of `b`, any list containing `b`
contains `a`. -/
theorem containsList_mono (a b : List Char) (hab : listStarts a b = true) :
    ∀ l : List Char, containsList b l = true → containsList a l = true := by
  intro l
  induction l with
  | nil =>
    intro h
    simp only [containsList, List.isEmpty_iff] at h ⊢
    subst h
    cases a with
    | nil => rfl
    | cons x xs => simp [listStarts] at hab
  | cons c rest ih =>
    intro h
    simp only [containsList, Bool.or_eq_true] at h ⊢
    rcases h with h | h
    · exact Or.inl (listStarts_trans a b (c :: rest) hab h)
    · exact Or.inr (ih h)

/-- `pyStrIn` is antitone in the needle: containing the longer string
implies containing any leading segment of it. -/
theorem pyStrIn_mono (a b s : String) (hab : listStarts a.data b.data = true)
    (h : pyStrIn b s = true) : pyStrIn a s = true :=
  containsList_mono a.data b.data hab s.data h

/-- C6 counterexample: the path `"/generate-pdf"` contains the
substring `"generate-pdf"` yet `_get_rate_limit_category` assigns it
`"default"`, not `"pdf_generation"` as the claim requires. -/
theorem C6_counterexample_contains_not_pdf_generation :
    pyStrIn "generate-pdf" "/generate-pdf" = true ∧
    get_rate_limit_category "/generate-pdf" = "default" ∧
    ("default" : String) ≠ "pdf_generation" := by decide

/-- Modelled from the amended claim: a path containing
`/api/pdf/generate-pdf` maps to `pdf_generation` (10 requests / 900 s);
otherwise one containing `/api/pdf/generate-preview` maps to
`preview_generation` (100 / 300); otherwise a path starting with
`/api/` maps to `api_general` (1000 / 3600); every remaining path maps
to `default` (100 / 3600). -/
def amendedRateCategorySpec (path : String) : String × Nat × Nat :=
  if pyStrIn "/api/pdf/generate-pdf" path then ("pdf_generation", 10, 900)
  else if pyStrIn "/api/pdf/generate-preview" path then ("preview_generation", 100, 300)
  else if pyStartsWith path "/api/" then ("api_general", 1000, 3600)
  else ("default", 100, 3600)

/-- C6 (amended): for every request path, the middleware's category and
its configured limit/window agree with the amended mapping, which keys
on the full `/api/pdf/...` endpoint substrings rather than the bare
`generate-pdf` / `generate-preview` names. -/
theorem C6_amended_category_selection (path : String) :
    get_rate_limit_category path = (amendedRateCategorySpec path).1 ∧
    (getRateLimit (get_rate_limit_category path)).requests = (amendedRateCategorySpec path).2.1 ∧
    (getRateLimit (get_rate_limit_category path)).window = (amendedRateCategorySpec path).2.2 := by
  have hAB : (pyStrIn "/api/pdf/generate-pdf" path ||
      pyStrIn "/api/pdf/generate-pdf-from-html" path) = pyStrIn "/api/pdf/generate-pdf" path := by
    cases hA : pyStrIn "/api/pdf/generate-pdf" path
    · cases hB : pyStrIn "/api/pdf/generate-pdf-from-html" path
      · rfl
      · have := pyStrIn_mono "/api/pdf/generate-pdf" "/api/pdf/generate-pdf-from-html" path
          (by decide) hB
        rw [this] at hA
        exact absurd hA (by simp)
    · rfl
  unfold get_rate_limit_category amendedRateCategorySpec
  rw [hAB]
  cases hA : pyStrIn "/api/pdf/generate-pdf" path
  · cases hC : pyStrIn "/api/pdf/generate-preview" path
    · cases hD : pyStartsWith path "/api/"
      · simp [hA, hC, hD]; decide
      · simp [hA, hC, hD]; decide
    · simp [hA, hC]; decide
  · simp [hA]; decide

/-! ## Static asset serving (`apps/core/static_views.py`) -/

/-- Response of `StaticAssetView.get`; `notFound` stands for the
raised `Http404`. -/
inductive StaticResp where
  | notFound (msg : String)
  | ok (content : List Nat)
deriving Repr, DecidableEq

/-- `StaticAssetView.get` (`static_views.py:24-36`, up to the MIME
lookup, which the claims do not touch): the filesystem is an explicit
argument, so consulting it at all is visible in the result. -/
def StaticAssetView.get (fs : String → Option (List Nat))
    (client_build_dir path : String) : StaticResp :=
  -- Security: prevent directory traversal
  if pyStrIn ".." path || pyStartsWith path "/" then .notFound "Invalid path"
  else
    -- file_path = os.path.join(settings.CLIENT_BUILD_DIR, 'assets', path)
    let file_path := client_build_dir ++ "/assets/" ++ path
    match fs file_path with
    | none => .notFound "File not found"
    | some content => .ok content

/-- C8: for every requested asset path containing `".."` or starting
with `"/"`, the static asset view responds not-found for every possible
filesystem content (so the filesystem is never consulted for it). -/
theorem C8_directory_traversal_guard (fs : String → Option (List Nat))
    (client_build_dir path : String)
    (h : pyStrIn ".." path = true ∨ pyStartsWith path "/" = true) :
    StaticAssetView.get fs client_build_dir path = .notFound "Invalid path" := by
  unfold StaticAssetView.get
  rcases h with h | h <;> simp [h]

/-- Witness for C8: `"../secret"` is rejected even on a filesystem
where every path resolves to a file. -/
theorem C8_directory_traversal_guard_witness :
    StaticAssetView.get (fun _ => some [0]) "/app/client/dist" "../secret" =
      .notFound "Invalid path" :=
  C8_directory_traversal_guard (fun _ => some [0]) "/app/client/dist" "../secret"
    (Or.inl (by decide))

/-! ## Suggested filename (`apps/pdf_generation/services.py:227-251`) -/

/-- Join a list of strings with a separator (Python `", ".join`). -/
def sepJoin (sep : String) : List String → String
  | [] => ""
  | [x] => x
  | x :: xs => x ++ sep ++ sepJoin sep xs

mutual
/-- Python `repr` on JSON-shaped values (enough for f-string
interpolation of non-string values; string escaping subtleties are
irrelevant to the claims). -/
def pyRepr : Json → String
  | .null => "None"
  | .bool true => "True"
  | .bool false => "False"
  | .num n => toString n
  | .str s => "'" ++ s ++ "'"
  | .arr xs => "[" ++ sepJoin ", " (pyReprElems xs) ++ "]"
  | .obj kvs => "\x7b" ++ sepJoin ", " (pyReprPairs kvs) ++ "\x7d"

def pyReprElems : List Json → List String
  | [] => []
  | x :: xs => pyRepr x :: pyReprElems xs

def pyReprPairs : List (String × Json) → List String
  | [] => []
  | kv :: rest => ("'" ++ kv.1 ++ "': " ++ pyRepr kv.2) :: pyReprPairs rest
end

/-- Python `str()` on JSON-shaped values (f-string interpolation). -/
def pyStr : Json → String
  | .str s => s
  | j => pyRepr j

/-- `c.isalnum() or c in "._-"` for the ASCII range the claims cover
(Python's `isalnum` is additionally true for some non-ASCII letters). -/
def filenameChar (c : Char) : Bool :=
  c.isAlphanum || c == '.' || c == '_' || c == '-'

/-- `"".join(c for c in filename if c.isalnum() or c in "._-")`. -/
def filenameFilter (s : String) : String :=
  ⟨s.data.filter filenameChar⟩

/-- `CVPDFService.get_suggested_filename`: the two fallthrough branches
are the `except` clause, reached when `.get` is called on a non-dict
(AttributeError). -/
def get_suggested_filename (cv_data : Json) : String :=
  match cv_data with
  | .obj kvs =>
    let personal_info := (lookupKV kvs "personal_info").getD (.obj [])
    match personal_info with
    | .obj pkvs =>
      let first_name := (lookupKV pkvs "first_name").getD (.str "CV")
      let last_name := (lookupKV pkvs "last_name").getD (.str "Resume")
      let filename := pyStr first_name ++ "_" ++ pyStr last_name ++ "_Resume.pdf"
      filenameFilter filename
    | _ => "CV_Resume.pdf"
  | _ => "CV_Resume.pdf"

/-- C4: what the source actually computes.  On `{"personal_info":
{"first_name": "John", "last_name": "Doe"}}` the result is
`"John_Doe_Resume.pdf"` as claimed, but on the empty CV data map the
defaults `first_name = "CV"`, `last_name = "Resume"` land in the format
string `f"{first}_{last}_Resume.pdf"`, producing
`"CV_Resume_Resume.pdf"` — not the `"CV_Resume.pdf"` that the claim and
the repository's own test (`tests/test_pdf_generation.py:72-75`)
require.  The general clause shows every object input goes through the
same `"<first>_<last>_Resume.pdf"` construction and filter. -/
theorem C4_suggested_filename :
    get_suggested_filename
        (.obj [("personal_info",
          .obj [("first_name", .str "John"), ("last_name", .str "Doe")])]) =
      "John_Doe_Resume.pdf" ∧
    get_suggested_filename (.obj []) = "CV_Resume_Resume.pdf" ∧
    ∀ (first_name last_name : Option String) (pkvs rest : List (String × Json)),
      lookupKV pkvs "first_name" = first_name.map Json.str →
      lookupKV pkvs "last_name" = last_name.map Json.str →
      get_suggested_filename (.obj (("personal_info", Json.obj pkvs) :: rest)) =
        filenameFilter
          ((first_name.getD "CV") ++ "_" ++ (last_name.getD "Resume") ++ "_Resume.pdf") := by
  refine ⟨by decide, by decide, ?_⟩
  intro first_name last_name pkvs rest h1 h2
  unfold get_suggested_filename
  simp only [lookupKV, beq_self_eq_true, if_true, Option.getD_some]
  rw [h1, h2]
  cases first_name <;> cases last_name <;> simp [pyStr]

/-- Witness for C4's general clause: a first name with a space and an
exclamation mark, no last name. -/
theorem C4_suggested_filename_witness :
    get_suggested_filename (.obj [("personal_info", .obj [("first_name", .str "Jo hn!")])]) =
      filenameFilter ("Jo hn!" ++ "_" ++ "Resume" ++ "_Resume.pdf") ∧
    filenameFilter ("Jo hn!" ++ "_" ++ "Resume" ++ "_Resume.pdf") = "John_Resume_Resume.pdf" :=
  ⟨C4_suggested_filename.2.2 (some "Jo hn!") none
      [("first_name", .str "Jo hn!")] [] rfl rfl,
   by decide⟩

/-! ## Date formatting (`apps/core/templatetags/cv_filters.py:122-138`)

`format_date` receives either a `date`/`datetime` object (which has
`strftime`), a string, or `None`.  `strftime` itself is the C library
routine; its `%b`/`%Y`/`%d`-style expansion over a format string is
modelled directly. -/

def monthAbbrList : List String :=
  ["Jan", "Feb", "Mar", "Apr", "May", "Jun", "Jul", "Aug", "Sep", "Oct", "Nov", "Dec"]

/-- `%b`: abbreviated month name (months are 1-based). -/
def monthAbbr (m : Nat) : String := monthAbbrList.getD (m - 1) ""

/-- Zero-pad a number to the given width. -/
def padZero (width n : Nat) : String :=
  let s := toString n
  ⟨List.replicate (width - s.length) '0' ++ s.data⟩

/-- One `%<c>` conversion of `strftime` for a date `(y, m, d)`;
unrecognized conversions pass through unchanged. -/
def strftimeDirective (y m d : Nat) (c : Char) : String :=
  if c == 'b' then monthAbbr m
  else if c == 'Y' then padZero 4 y
  else if c == 'd' then padZero 2 d
  else if c == 'm' then padZero 2 m
  else if c == 'y' then padZero 2 (y % 100)
  else if c == '%' then "%"
  else "%" ++ String.singleton c

def strftimeChars (y m d : Nat) : List Char → List Char
  | [] => []
  | '%' :: c :: rest => (strftimeDirective y m d c).data ++ strftimeChars y m d rest
  | c :: rest => c :: strftimeChars y m d rest

/-- `date(y, m, d).strftime(fmt)`. -/
def pyStrftime (y m d : Nat) (fmt : String) : String :=
  ⟨strftimeChars y m d fmt.data⟩

/-- The values `format_date` can receive. -/
inductive DateVal where
  | noneVal
  | strVal (s : String)
  | dateVal (y m d : Nat)
deriving Repr, DecidableEq

/-- Python truthiness of a `format_date` input (`if not date_value`). -/
def dateTruthy : DateVal → Bool
  | .noneVal => false
  | .strVal s => !s.isEmpty
  | .dateVal _ _ _ => true

/-- `str(date_value)`. -/
def dateStr : DateVal → String
  | .noneVal => "None"
  | .strVal s => s
  | .dateVal y m d => padZero 4 y ++ "-" ++ padZero 2 m ++ "-" ++ padZero 2 d

/-- `format_date` (`cv_filters.py:122-138`): empty string for falsy
input; named formats `"M Y"`, `"Y"`, `"M d, Y"`; any other string used
as a raw format; and the bare `except` returns `str(date_value)` —
which is what happens when the value has no `strftime` attribute. -/
def format_date (date_value : DateVal) (format_string : String) : String :=
  if !dateTruthy date_value then ""
  else
    match date_value with
    | .dateVal y m d =>
      if format_string == "M Y" then pyStrftime y m d "%b %Y"
      else if format_string == "Y" then pyStrftime y m d "%Y"
      else if format_string == "M d, Y" then pyStrftime y m d "%b %d, %Y"
      else pyStrftime y m d format_string
    | v => dateStr v

/-- C9: `format_date` returns `""` for every falsy input; maps `"M Y"`
to abbreviated month + 4-digit year, `"Y"` to 4-digit year, `"M d, Y"`
to abbreviated month, day, year; applies any other string as a raw
format; and returns the stringified input whenever formatting raises
(here: a truthy non-date input, which has no `strftime`). -/
theorem C9_format_date :
    (∀ (v : DateVal) (fmt : String), dateTruthy v = false → format_date v fmt = "") ∧
    (∀ y m d, format_date (.dateVal y m d) "M Y" = monthAbbr m ++ " " ++ padZero 4 y) ∧
    (∀ y m d, format_date (.dateVal y m d) "Y" = padZero 4 y) ∧
    (∀ y m d, format_date (.dateVal y m d) "M d, Y" =
      monthAbbr m ++ " " ++ padZero 2 d ++ ", " ++ padZero 4 y) ∧
    (∀ y m d fmt, fmt ≠ "M Y" → fmt ≠ "Y" → fmt ≠ "M d, Y" →
      format_date (.dateVal y m d) fmt = pyStrftime y m d fmt) ∧
    (∀ s : String, s ≠ "" → ∀ fmt, format_date (.strVal s) fmt = s) := by
  refine ⟨?_, ?_, ?_, ?_, ?_, ?_⟩
  · intro v fmt h
    simp [format_date, h]
  · intro y m d
    apply String.ext
    show (pyStrftime y m d "%b %Y").data = _
    simp [pyStrftime, strftimeChars, strftimeDirective, String.data_append]
  · intro y m d
    apply String.ext
    show (pyStrftime y m d "%Y").data = _
    simp [pyStrftime, strftimeChars, strftimeDirective]
  · intro y m d
    apply String.ext
    show (pyStrftime y m d "%b %d, %Y").data = _
    simp [pyStrftime, strftimeChars, strftimeDirective, String.data_append]
  · intro y m d fmt h1 h2 h3
    simp only [format_date, dateTruthy, Bool.not_true, Bool.false_eq_true, if_false]
    rw [if_neg (by simpa using h1), if_neg (by simpa using h2), if_neg (by simpa using h3)]
  · intro s hs fmt
    have h : s.isEmpty = false := by
      cases h : s.isEmpty
      · rfl
      · exact absurd ((String.isEmpty_iff s).mp h) hs
    simp [format_date, dateTruthy, dateStr, h]

/-- Witness for C9: a falsy input, an escape-hatch format string, and a
truthy non-date input, all concrete. -/
theorem C9_format_date_witness :
    format_date .noneVal "M Y" = "" ∧
    format_date (.dateVal 2021 5 7) "%d/%m" = pyStrftime 2021 5 7 "%d/%m" ∧
    format_date (.strVal "2020-01") "M Y" = "2020-01" :=
  ⟨C9_format_date.1 .noneVal "M Y" rfl,
   C9_format_date.2.2.2.2.1 2021 5 7 "%d/%m" (by decide) (by decide) (by decide),
   C9_format_date.2.2.2.2.2 "2020-01" (by decide) "M Y"⟩

/-! ## Template catalog (`cvflo/settings.py:220-274`) and
`get_template_config` (`services.py:253-263`,
`enhanced_services.py:472-474`) -/

structure MarginSettings where
  top : String
  right : String
  bottom : String
  left : String
deriving Repr, DecidableEq

/-- PDF layout parameters of a catalog entry.  The `scale: 1.0` float
literal is carried as its source text, since no claim computes with
it. -/
structure PdfSettings where
  page_format : String
  margin : MarginSettings
  scale_literal : String
  print_background : Bool
deriving Repr, DecidableEq

structure TemplateConfig where
  name : String
  display_name : String
  description : String
  responsive : Bool
  has_columns : Bool
  pdf_settings : PdfSettings
deriving Repr, DecidableEq

def standardPdfSettings : PdfSettings :=
  { page_format := "A4"
    margin := { top := "0.4in", right := "0.5in", bottom := "0.4in", left := "0.5in" }
    scale_literal := "1.0"
    print_background := true }

def classicConfig : TemplateConfig :=
  { name := "classic-0", display_name := "Classic Template"
    description := "Traditional single-column layout with clean typography"
    responsive := false, has_columns := false, pdf_settings := standardPdfSettings }

/-- `settings.CV_TEMPLATES`. -/
def CV_TEMPLATES : List (String × TemplateConfig) :=
  [("classic-0", classicConfig),
   ("modern-0",
    { name := "modern-0", display_name := "Modern Template"
      description := "Multi-column layout with modern design elements"
      responsive := true, has_columns := true, pdf_settings := standardPdfSettings }),
   ("modern-1",
    { name := "modern-1", display_name := "Modern Template v2"
      description := "Alternative modern layout with sidebar"
      responsive := true, has_columns := true, pdf_settings := standardPdfSettings }),
   ("academic-0",
    { name := "academic-0", display_name := "Academic Template"
      description := "Professional academic layout with publication focus"
      responsive := false, has_columns := false, pdf_settings := standardPdfSettings })]

/-- `CVPDFService.get_template_config`:
`settings.CV_TEMPLATES.get(template_name, settings.CV_TEMPLATES['classic-0'])`. -/
def get_template_config (template_name : String) : TemplateConfig :=
  (lookupKV CV_TEMPLATES template_name).getD classicConfig

/-- `EnhancedCVPDFService._get_template_config` — same expression in
the enhanced service. -/
def enhanced_get_template_config (template_name : String) : TemplateConfig :=
  (lookupKV CV_TEMPLATES template_name).getD classicConfig

/-- `template_config.get('pdf_settings', {})` as used at the top of
`CVPDFService.html_to_pdf` (`services.py:124-125`): the settings the
HTML-to-PDF conversion proceeds with. -/
def html_to_pdf_settings (template_name : String) : PdfSettings :=
  (get_template_config template_name).pdf_settings

/-- C10: for every template name not present in the catalog, both
`get_template_config` and the enhanced variant return the `classic-0`
entry instead of failing, so HTML-to-PDF conversion with an unknown
template name proceeds with classic-0's PDF settings. -/
theorem C10_unknown_template_falls_back_to_classic (template_name : String)
    (h : lookupKV CV_TEMPLATES template_name = none) :
    get_template_config template_name = classicConfig ∧
    enhanced_get_template_config template_name = classicConfig ∧
    html_to_pdf_settings template_name = standardPdfSettings := by
  simp [get_template_config, enhanced_get_template_config, html_to_pdf_settings, h,
    classicConfig]

/-- Witness for C10 at the unknown name `"nonexistent-template"`. -/
theorem C10_unknown_template_falls_back_to_classic_witness :
    get_template_config "nonexistent-template" = classicConfig ∧
    enhanced_get_template_config "nonexistent-template" = classicConfig ∧
    html_to_pdf_settings "nonexistent-template" = standardPdfSettings :=
  C10_unknown_template_falls_back_to_classic "nonexistent-template" rfl

/-! ## Batch PDF generation
(`EnhancedCVPDFService.generate_pdf_batch`,
`enhanced_services.py:118-155`)

Each request is submitted to the worker pool (`submit_batch`, input
order); `concurrent.futures.as_completed` then yields the same futures
in completion order — modelled as an explicit reordering function
constrained to be a permutation — and each future resolves to either
PDF bytes or a failure (exception or 60-second timeout), collected as
`Some bytes` / `None`. -/

structure GenRequest where
  cv_data : Json
  visibility : Json
  template_name : Option String
  user_id : Option Nat

/-- The `pool.submit_generation(self._generate_pdf_sync, ...)` loop:
one future per request, in input order, with the `'classic-0'`
template default applied. -/
def submit_batch (gen : Json → Json → String → Option Nat → Except String (List Nat))
    (requests : List GenRequest) : List (Except String (List Nat)) :=
  requests.map (fun r =>
    gen r.cv_data r.visibility (r.template_name.getD "classic-0") r.user_id)

/-- The `for future in as_completed(futures)` loop body: a resolved
future appends its bytes, a raising or timed-out one appends `None`. -/
def collect_results (completed : List (Except String (List Nat))) :
    List (Option (List Nat)) :=
  completed.map (fun res => match res with | .ok pdf => some pdf | .error _ => none)

/-- `generate_pdf_batch`, with the completion order of
`as_completed` made explicit as `asCompleted`. -/
def generate_pdf_batch (gen : Json → Json → String → Option Nat → Except String (List Nat))
    (requests : List GenRequest)
    (asCompleted : List (Except String (List Nat)) → List (Except String (List Nat))) :
    List (Option (List Nat)) :=
  collect_results (asCompleted (submit_batch gen requests))

/-- Concrete generator for the C7 counterexample: fails exactly on
template `"boom"`, else returns one-byte PDF `[37]`. -/
def batchGenEx (cv vis : Json) (tpl : String) (uid : Option Nat) :
    Except String (List Nat) :=
  if tpl == "boom" then .error "generation failed" else .ok [37]

def batchReqBoom : GenRequest := ⟨.obj [], .obj [], some "boom", none⟩

def batchReqOk : GenRequest := ⟨.obj [], .obj [], none, none⟩

def batchReqsEx : List GenRequest := [batchReqBoom, batchReqOk]

/-- C7 counterexample: with two requests whose first one fails, a
legitimate completion order (the reverse of submission order — and
`as_completed` yields futures in completion order) produces
`[some [37], none]`: slot 0, the failing request's slot, holds the
successful bytes, not the null placeholder the claim requires. -/
theorem C7_counterexample_slot_misaligned :
    (List.reverse (submit_batch batchGenEx batchReqsEx)).Perm
      (submit_batch batchGenEx batchReqsEx) ∧
    generate_pdf_batch batchGenEx batchReqsEx List.reverse = [some [37], none] ∧
    (generate_pdf_batch batchGenEx batchReqsEx List.reverse).head? ≠ some none :=
  ⟨List.reverse_perm _, by decide, by decide⟩

/-- C7 (amended): for every batch and every completion order (any
permutation of the submitted futures), `generate_pdf_batch` returns
exactly N results — a permutation of the per-request outcomes, each
failing request contributing the null placeholder and each successful
one its PDF bytes — rather than the whole batch aborting; in
particular, whenever some request fails, a null placeholder occurs
among the results (though not necessarily at that request's input
position). -/
theorem C7_amended_batch_partial_failure
    (gen : Json → Json → String → Option Nat → Except String (List Nat))
    (requests : List GenRequest)
    (asCompleted : List (Except String (List Nat)) → List (Except String (List Nat)))
    (hperm : (asCompleted (submit_batch gen requests)).Perm (submit_batch gen requests)) :
    (generate_pdf_batch gen requests asCompleted).length = requests.length ∧
    (generate_pdf_batch gen requests asCompleted).Perm
      (requests.map (fun r =>
        match gen r.cv_data r.visibility (r.template_name.getD "classic-0") r.user_id with
        | .ok pdf => some pdf
        | .error _ => none)) ∧
    (∀ r ∈ requests,
      (∃ e, gen r.cv_data r.visibility (r.template_name.getD "classic-0") r.user_id = .error e) →
      none ∈ generate_pdf_batch gen requests asCompleted) := by
  have hmap := hperm.map (fun res => match res with | .ok pdf => some pdf | .error _ => none)
  have hsub : (submit_batch gen requests).map
      (fun res => match res with | .ok pdf => some pdf | .error _ => none) =
      requests.map (fun r =>
        match gen r.cv_data r.visibility (r.template_name.getD "classic-0") r.user_id with
        | .ok pdf => some pdf
        | .error _ => none) := by
    simp [submit_batch, List.map_map, Function.comp]
  have hperm2 : (generate_pdf_batch gen requests asCompleted).Perm
      (requests.map (fun r =>
        match gen r.cv_data r.visibility (r.template_name.getD "classic-0") r.user_id with
        | .ok pdf => some pdf
        | .error _ => none)) := by
    unfold generate_pdf_batch collect_results
    rw [← hsub]
    exact hmap
  refine ⟨?_, hperm2, ?_⟩
  · rw [hperm2.length_eq, List.length_map]
  · intro r hr ⟨e, he⟩
    have : none ∈ requests.map (fun r =>
        match gen r.cv_data r.visibility (r.template_name.getD "classic-0") r.user_id with
        | .ok pdf => some pdf
        | .error _ => none) := by
      refine List.mem_map.mpr ⟨r, hr, ?_⟩
      rw [he]
    exact hperm2.symm.mem_iff.mp this

/-- Witness for C7's amended theorem: the two-request batch with a
reversed completion order. -/
theorem C7_amended_batch_partial_failure_witness :
    (generate_pdf_batch batchGenEx batchReqsEx List.reverse).length = batchReqsEx.length ∧
    none ∈ generate_pdf_batch batchGenEx batchReqsEx List.reverse :=
  have h := C7_amended_batch_partial_failure batchGenEx batchReqsEx List.reverse
    (List.reverse_perm _)
  ⟨h.1, h.2.2 batchReqBoom (List.mem_cons_self _ _) ⟨"generation failed", rfl⟩⟩

/-! ## Canonical JSON serialization
(`EnhancedCVPDFService._generate_cache_key`,
`enhanced_services.py:427-438`)

`json.dumps(..., sort_keys=True)` serializes objects with their keys in
ascending code-point order.  Python compares strings lexicographically
by code point, modelled by `charListLe`. -/

/-- Lexicographic (code-point) `≤` on character lists — Python string
comparison. -/
def charListLe : List Char → List Char → Bool
  | [], _ => true
  | _ :: _, [] => false
  | a :: as, b :: bs =>
    if a.toNat < b.toNat then true
    else if b.toNat < a.toNat then false
    else charListLe as bs

theorem charListLe_total : ∀ a b : List Char, charListLe a b = true ∨ charListLe b a = true := by
  intro a
  induction a with
  | nil => intro b; exact Or.inl rfl
  | cons x xs ih =>
    intro b
    cases b with
    | nil => exact Or.inr rfl
    | cons y ys =>
      by_cases h1 : x.toNat < y.toNat
      · left; simp [charListLe, h1]
      · by_cases h2 : y.toNat < x.toNat
        · right; simp [charListLe, h2]
        · rcases ih ys with h | h
          · left; simp [charListLe, h1, h2, h]
          · right; simp [charListLe, h1, h2, h]

theorem charListLe_head_le {x y : Char} {xs ys : List Char}
    (h : charListLe (x :: xs) (y :: ys) = true) : x.toNat ≤ y.toNat := by
  simp only [charListLe] at h
  by_cases h1 : x.toNat < y.toNat
  · omega
  · rw [if_neg h1] at h
    by_cases h2 : y.toNat < x.toNat
    · rw [if_pos h2] at h; exact absurd h (by simp)
    · omega

theorem charListLe_cons_of_eq {x y : Char} (hxy : x.toNat = y.toNat) (xs ys : List Char) :
    charListLe (x :: xs) (y :: ys) = charListLe xs ys := by
  simp only [charListLe]
  rw [if_neg (by omega), if_neg (by omega)]

theorem charListLe_trans : ∀ a b c : List Char,
    charListLe a b = true → charListLe b c = true → charListLe a c = true := by
  intro a
  induction a with
  | nil => intro b c _ _; rfl
  | cons x xs ih =>
    intro b c hab hbc
    cases b with
    | nil => simp [charListLe] at hab
    | cons y ys =>
      cases c with
      | nil => simp [charListLe] at hbc
      | cons z zs =>
        have hxy := charListLe_head_le hab
        have hyz := charListLe_head_le hbc
        by_cases hxz : x.toNat < z.toNat
        · simp [charListLe, hxz]
        · have hx_y : x.toNat = y.toNat := by omega
          have hy_z : y.toNat = z.toNat := by omega
          rw [charListLe_cons_of_eq (by omega)]
          rw [charListLe_cons_of_eq hx_y] at hab
          rw [charListLe_cons_of_eq hy_z] at hbc
          exact ih ys zs hab hbc

/-- Key order on association-list entries: compare keys only (Python's
`sorted` over a dict's items never reaches the values, since dict keys
are distinct). -/
def keyLe {α : Type} (a b : String × α) : Prop := charListLe a.1.data b.1.data = true

instance {α : Type} : DecidableRel (keyLe (α := α)) :=
  fun a b => inferInstanceAs (Decidable (_ = true))

instance {α : Type} : IsTotal (String × α) keyLe :=
  ⟨fun a b => charListLe_total a.1.data b.1.data⟩

instance {α : Type} : IsTrans (String × α) keyLe :=
  ⟨fun a b c => charListLe_trans a.1.data b.1.data c.1.data⟩

/-- Stable sort of dict items by key (`sorted(d.items())` as performed
by `json.dumps(..., sort_keys=True)`). -/
def sortByKey {α : Type} (l : List (String × α)) : List (String × α) :=
  l.insertionSort keyLe

theorem sortByKey_perm {α : Type} (l : List (String × α)) : (sortByKey l).Perm l :=
  List.perm_insertionSort keyLe l

/-- Sorting by key commutes with mapping over the values. -/
theorem sortByKey_map {α β : Type} (f : α → β) (l : List (String × α)) :
    sortByKey (l.map (fun kv => (kv.1, f kv.2))) =
      (sortByKey l).map (fun kv => (kv.1, f kv.2)) := by
  unfold sortByKey
  rw [← List.map_insertionSort keyLe keyLe (fun kv => (kv.1, f kv.2)) l]
  intro a _ b _
  exact Iff.rfl

theorem sortByKey_idem {α : Type} (l : List (String × α)) :
    sortByKey (sortByKey l) = sortByKey l :=
  List.Sorted.insertionSort_eq (List.sorted_insertionSort keyLe l)

theorem perm_sizeOf_eq {α : Type} [SizeOf α] {l1 l2 : List α} (h : l1.Perm l2) :
    sizeOf l1 = sizeOf l2 := by
  induction h with
  | nil => rfl
  | cons x _ ih => simp [ih]
  | swap x y l => simp; omega
  | trans _ _ ih1 ih2 => omega

/-- Lowercase hex digit. -/
def hexDigit (n : Nat) : Char :=
  if n < 10 then Char.ofNat (48 + n) else Char.ofNat (97 + n - 10)

/-- `\uXXXX` escape. -/
def u16Escape (n : Nat) : List Char :=
  ['\\', 'u', hexDigit (n / 4096 % 16), hexDigit (n / 256 % 16),
   hexDigit (n / 16 % 16), hexDigit (n % 16)]

/-- One character of `json.dumps` default (`ensure_ascii=True`) string
encoding: short escapes for the usual controls, `\uXXXX` for other
controls and all non-ASCII (surrogate pairs above U+FFFF). -/
def jsonEscapeChar (c : Char) : List Char :=
  if c == '"' then ['\\', '"']
  else if c == '\\' then ['\\', '\\']
  else if c == '\n' then ['\\', 'n']
  else if c == '\t' then ['\\', 't']
  else if c == '\r' then ['\\', 'r']
  else if c.toNat == 8 then ['\\', 'b']
  else if c.toNat == 12 then ['\\', 'f']
  else if c.toNat < 32 then u16Escape c.toNat
  else if c.toNat < 127 then [c]
  else if c.toNat < 65536 then u16Escape c.toNat
  else
    u16Escape (55296 + (c.toNat - 65536) / 1024) ++ u16Escape (56320 + (c.toNat - 65536) % 1024)

/-- A JSON string literal, double-quoted and escaped. -/
def dumpStr (s : String) : String :=
  ⟨'"' :: s.data.foldr (fun c acc => jsonEscapeChar c ++ acc) ['"']⟩

mutual
/-- `json.dumps(j, sort_keys=True)` with the default separators
`", "` / `": "` (integers are the only numbers the model carries). -/
def dumps : Json → String
  | .null => "null"
  | .bool true => "true"
  | .bool false => "false"
  | .num n => toString n
  | .str s => dumpStr s
  | .arr xs => "[" ++ sepJoin ", " (dumpsElems xs) ++ "]"
  | .obj kvs => "\x7b" ++ sepJoin ", " (dumpsPairs (sortByKey kvs)) ++ "\x7d"
termination_by j => sizeOf j
decreasing_by
  all_goals simp_wf
  rw [perm_sizeOf_eq (sortByKey_perm kvs)]
  omega

def dumpsElems : List Json → List String
  | [] => []
  | x :: xs => dumps x :: dumpsElems xs
termination_by l => sizeOf l
decreasing_by
  all_goals simp_wf <;> omega

def dumpsPairs : List (String × Json) → List String
  | [] => []
  | (k, v) :: rest => (dumpStr k ++ ": " ++ dumps v) :: dumpsPairs rest
termination_by l => sizeOf l
decreasing_by
  all_goals simp_wf <;> omega
end

mutual
/-- Canonical form of a JSON value: every object's pairs sorted by key
(with canonical values).  Two values are "equal as maps regardless of
key insertion order" exactly when their canonical forms coincide. -/
def canon : Json → Json
  | .null => .null
  | .bool b => .bool b
  | .num n => .num n
  | .str s => .str s
  | .arr xs => .arr (canonElems xs)
  | .obj kvs => .obj (sortByKey (canonPairs kvs))

def canonElems : List Json → List Json
  | [] => []
  | x :: xs => canon x :: canonElems xs

def canonPairs : List (String × Json) → List (String × Json)
  | [] => []
  | (k, v) :: rest => (k, canon v) :: canonPairs rest
end

theorem canonPairs_eq_map (l : List (String × Json)) :
    canonPairs l = l.map (fun kv => (kv.1, canon kv.2)) := by
  induction l with
  | nil => rfl
  | cons kv rest ih => cases kv; simp [canonPairs, ih]

/-- Structural induction on `Json` with membership hypotheses for the
nested lists. -/
theorem Json.recAux (P : Json → Prop)
    (h0 : P .null) (h1 : ∀ b, P (.bool b)) (h2 : ∀ n, P (.num n)) (h3 : ∀ s, P (.str s))
    (h4 : ∀ xs, (∀ x ∈ xs, P x) → P (.arr xs))
    (h5 : ∀ kvs, (∀ kv ∈ kvs, P kv.2) → P (.obj kvs)) : ∀ j, P j
  | .null => h0
  | .bool b => h1 b
  | .num n => h2 n
  | .str s => h3 s
  | .arr xs => h4 xs (fun x hx => Json.recAux P h0 h1 h2 h3 h4 h5 x)
  | .obj kvs => h5 kvs (fun kv hkv => Json.recAux P h0 h1 h2 h3 h4 h5 kv.2)
termination_by j => sizeOf j
decreasing_by
  · have := List.sizeOf_lt_of_mem hx
    simp_wf
    omega
  · have h := List.sizeOf_lt_of_mem hkv
    obtain ⟨k, v⟩ := kv
    simp_wf
    simp at h
    omega

theorem dumpsElems_canon (xs : List Json) (ih : ∀ x ∈ xs, dumps (canon x) = dumps x) :
    dumpsElems (canonElems xs) = dumpsElems xs := by
  induction xs with
  | nil => rfl
  | cons x rest ihr =>
    simp only [canonElems, dumpsElems]
    rw [ih x (by simp), ihr (fun y hy => ih y (by simp [hy]))]

theorem dumpsPairs_map_canon (l : List (String × Json))
    (ih : ∀ kv ∈ l, dumps (canon kv.2) = dumps kv.2) :
    dumpsPairs (l.map (fun kv => (kv.1, canon kv.2))) = dumpsPairs l := by
  induction l with
  | nil => rfl
  | cons kv rest ihr =>
    obtain ⟨k, v⟩ := kv
    simp only [List.map_cons, dumpsPairs]
    rw [ih (k, v) (by simp), ihr (fun y hy => ih y (by simp [hy]))]

/-- `json.dumps(..., sort_keys=True)` is invariant under
canonicalization: the serialization only depends on the canonical
form. -/
theorem dumps_canon : ∀ j : Json, dumps (canon j) = dumps j := by
  intro j
  induction j using Json.recAux with
  | h0 => rfl
  | h1 b => cases b <;> rfl
  | h2 n => rfl
  | h3 s => rfl
  | h4 xs ih =>
    show dumps (.arr (canonElems xs)) = dumps (.arr xs)
    unfold dumps
    rw [dumpsElems_canon xs ih]
  | h5 kvs ih =>
    show dumps (.obj (sortByKey (canonPairs kvs))) = dumps (.obj kvs)
    unfold dumps
    rw [sortByKey_idem, canonPairs_eq_map, sortByKey_map]
    rw [dumpsPairs_map_canon (sortByKey kvs)
      (fun kv hkv => ih kv ((sortByKey_perm kvs).mem_iff.mp hkv))]

/-! ## SHA-256 (`hashlib.sha256(...).hexdigest()`)

Standard FIPS 180-4 SHA-256 over the UTF-8 bytes of the serialized
JSON, on `Nat` with explicit 32-bit wrapping. -/

def w32 (n : Nat) : Nat := n % 4294967296

def rotr32 (x n : Nat) : Nat := w32 ((x >>> n) ||| (x <<< (32 - n)))

def shaK : List Nat :=
  [1116352408, 1899447441, 3049323471, 3921009573,
   961987163, 1508970993, 2453635748, 2870763221,
   3624381080, 310598401, 607225278, 1426881987,
   1925078388, 2162078206, 2614888103, 3248222580,
   3835390401, 4022224774, 264347078, 604807628,
   770255983, 1249150122, 1555081692, 1996064986,
   2554220882, 2821834349, 2952996808, 3210313671,
   3336571891, 3584528711, 113926993, 338241895,
   666307205, 773529912, 1294757372, 1396182291,
   1695183700, 1986661051, 2177026350, 2456956037,
   2730485921, 2820302411, 3259730800, 3345764771,
   3516065817, 3600352804, 4094571909, 275423344,
   430227734, 506948616, 659060556, 883997877,
   958139571, 1322822218, 1537002063, 1747873779,
   1955562222, 2024104815, 2227730452, 2361852424,
   2428436474, 2756734187, 3204031479, 3329325298]

def shaH0 : List Nat :=
  [1779033703, 3144134277, 1013904242, 2773480762,
   1359893119, 2600822924, 528734635, 1541459225]

/-- UTF-8 encoding of one character. -/
def utf8Char (c : Char) : List Nat :=
  let n := c.toNat
  if n < 128 then [n]
  else if n < 2048 then [192 + n / 64, 128 + n % 64]
  else if n < 65536 then [224 + n / 4096, 128 + n / 64 % 64, 128 + n % 64]
  else [240 + n / 262144, 128 + n / 4096 % 64, 128 + n / 64 % 64, 128 + n % 64]

/-- `s.encode()`: UTF-8 bytes of a string. -/
def strBytes (s : String) : List Nat :=
  s.data.foldr (fun c acc => utf8Char c ++ acc) []

/-- Big-endian bytes of `n`, fixed width. -/
def beBytes (width n : Nat) : List Nat :=
  (List.range width).reverse.map (fun i => n >>> (8 * i) % 256)

/-- SHA-256 message padding: `0x80`, zeros to 56 mod 64, then the
64-bit big-endian bit length. -/
def sha256pad (msg : List Nat) : List Nat :=
  msg ++ [128] ++ List.replicate ((119 - msg.length % 64) % 64) 0 ++ beBytes 8 (msg.length * 8)

/-- Big-endian 32-bit words from bytes. -/
def toWords : List Nat → List Nat
  | b0 :: b1 :: b2 :: b3 :: rest =>
      (b0 * 16777216 + b1 * 65536 + b2 * 256 + b3) :: toWords rest
  | _ => []

/-- Split into 64-byte blocks. -/
def toBlocks : List Nat → List (List Nat)
  | [] => []
  | b :: rest => (b :: rest).take 64 :: toBlocks ((b :: rest).drop 64)
termination_by l => l.length
decreasing_by
  simp
  omega

def ssig0 (x : Nat) : Nat := rotr32 x 7 ^^^ rotr32 x 18 ^^^ (x >>> 3)
def ssig1 (x : Nat) : Nat := rotr32 x 17 ^^^ rotr32 x 19 ^^^ (x >>> 10)
def bsig0 (x : Nat) : Nat := rotr32 x 2 ^^^ rotr32 x 13 ^^^ rotr32 x 22
def bsig1 (x : Nat) : Nat := rotr32 x 6 ^^^ rotr32 x 11 ^^^ rotr32 x 25

/-- Extend the 16-word schedule by `k` further words. -/
def extendSchedule (ws : List Nat) : Nat → List Nat
  | 0 => ws
  | k + 1 =>
    let prev := extendSchedule ws k
    let i := prev.length
    prev ++ [w32 (ssig1 (prev.getD (i - 2) 0) + prev.getD (i - 7) 0 +
      ssig0 (prev.getD (i - 15) 0) + prev.getD (i - 16) 0)]

/-- One compression round on the 8-word state. -/
def shaRound (st : List Nat) (k w : Nat) : List Nat :=
  match st with
  | [a, b, c, d, e, f, g, h] =>
    let ch := (e &&& f) ^^^ ((e ^^^ 4294967295) &&& g)
    let t1 := w32 (h + bsig1 e + ch + k + w)
    let maj := (a &&& b) ^^^ (a &&& c) ^^^ (b &&& c)
    let t2 := w32 (bsig0 a + maj)
    [w32 (t1 + t2), a, b, c, w32 (d + t1), e, f, g]
  | other => other

def compressBlock (hs : List Nat) (block : List Nat) : List Nat :=
  let ws := extendSchedule (toWords block) 48
  let st := (List.range 64).foldl (fun st i => shaRound st (shaK.getD i 0) (ws.getD i 0)) hs
  List.zipWith (fun h v => w32 (h + v)) hs st

def sha256bytes (msg : List Nat) : List Nat :=
  let hs := (toBlocks (sha256pad msg)).foldl compressBlock shaH0
  hs.foldr (fun h acc => beBytes 4 h ++ acc) []

def hexByte (b : Nat) : List Char := [hexDigit (b / 16), hexDigit (b % 16)]

/-- `hashlib.sha256(content_str.encode()).hexdigest()`. -/
def sha256hex (s : String) : String :=
  ⟨(sha256bytes (strBytes s)).foldr (fun b acc => hexByte b ++ acc) []⟩

/-! ## Cached PDF generation
(`EnhancedCVPDFService.generate_pdf_with_cache`,
`enhanced_services.py:157-188` and `_generate_cache_key`, 427-438) -/

/-- `_generate_cache_key`: `"pdf_cache:" + sha256(json.dumps({...},
sort_keys=True)).hexdigest()`. -/
def generate_cache_key (cv_data visibility : Json) (template_name : String) : String :=
  "pdf_cache:" ++ sha256hex (dumps (.obj
    [("cv_data", cv_data),
     ("visibility", visibility),
     ("template_name", .str template_name)]))

/-- The Django cache, restricted to the PDF-bytes entries this service
stores (TTL expiry not modelled; no claim crosses the 3600 s TTL). -/
def PdfCache : Type := String → Option (List Nat)

def PdfCache.set (c : PdfCache) (k : String) (v : List Nat) : PdfCache :=
  fun k2 => if k2 == k then some v else c k2

/-- `generate_pdf_with_cache`: on a Python-truthy cached value return
it with `was_cached = True`; otherwise generate (the engine is the
`gen` parameter), store and return with `was_cached = False`. -/
def generate_pdf_with_cache (gen : Json → Json → String → List Nat)
    (cache : PdfCache) (cv_data visibility : Json) (template_name : String) :
    (List Nat × Bool) × PdfCache :=
  let cache_key := generate_cache_key cv_data visibility template_name
  match cache cache_key with
  | some cached_pdf =>
    if !cached_pdf.isEmpty then ((cached_pdf, true), cache)
    else
      let pdf_data := gen cv_data visibility template_name
      ((pdf_data, false), cache.set cache_key pdf_data)
  | none =>
    let pdf_data := gen cv_data visibility template_name
    ((pdf_data, false), cache.set cache_key pdf_data)

/-- A Python-truthy cache hit returns the cached bytes with
`was_cached = true` and leaves the cache unchanged, never calling the
generator. -/
theorem generate_pdf_with_cache_hit (gen : Json → Json → String → List Nat)
    (cache : PdfCache) (cv_data visibility : Json) (template_name : String)
    (b : List Nat) (hb : cache (generate_cache_key cv_data visibility template_name) = some b)
    (hne : b.isEmpty = false) :
    generate_pdf_with_cache gen cache cv_data visibility template_name = ((b, true), cache) := by
  unfold generate_pdf_with_cache
  simp only [hb, hne]
  rfl

/-- C3: the cache key is the hex SHA-256 of the sorted-key JSON
serialization of `{cv_data, visibility, template_name}` prefixed with
`"pdf_cache:"`, so two calls whose inputs are equal as maps (same
canonical form, any key insertion order) get the same key; starting
from an empty cache, the first call generates (`was_cached = false`)
and stores the bytes, and a second call with map-equal inputs returns
those stored bytes with `was_cached = true` for every possible
generator `gen2` — i.e. without invoking generation.  (The nonemptiness
hypothesis reflects that the engine returns a nonempty PDF; an empty
cached byte string would be Python-falsy and miss.) -/
theorem C3_cache_key_and_caching (cv1 vis1 cv2 vis2 : Json) (template_name : String)
    (gen : Json → Json → String → List Nat)
    (h1 : canon cv1 = canon cv2) (h2 : canon vis1 = canon vis2)
    (hne : gen cv1 vis1 template_name ≠ []) :
    generate_cache_key cv1 vis1 template_name =
      generate_cache_key cv2 vis2 template_name ∧
    (generate_pdf_with_cache gen (fun _ => none) cv1 vis1 template_name).1 =
      (gen cv1 vis1 template_name, false) ∧
    (generate_pdf_with_cache gen (fun _ => none) cv1 vis1 template_name).2
        (generate_cache_key cv1 vis1 template_name) =
      some (gen cv1 vis1 template_name) ∧
    ∀ gen2 : Json → Json → String → List Nat,
      (generate_pdf_with_cache gen2
          (generate_pdf_with_cache gen (fun _ => none) cv1 vis1 template_name).2
          cv2 vis2 template_name).1 =
        (gen cv1 vis1 template_name, true) ∧
      (generate_pdf_with_cache gen2
          (generate_pdf_with_cache gen (fun _ => none) cv1 vis1 template_name).2
          cv2 vis2 template_name).2 =
        (generate_pdf_with_cache gen (fun _ => none) cv1 vis1 template_name).2 := by
  have hkey : generate_cache_key cv1 vis1 template_name =
      generate_cache_key cv2 vis2 template_name := by
    unfold generate_cache_key
    have hd : dumps (.obj
        [("cv_data", cv1), ("visibility", vis1), ("template_name", .str template_name)]) =
        dumps (.obj
        [("cv_data", cv2), ("visibility", vis2), ("template_name", .str template_name)]) := by
      rw [← dumps_canon (.obj
        [("cv_data", cv1), ("visibility", vis1), ("template_name", .str template_name)]),
        ← dumps_canon (.obj
        [("cv_data", cv2), ("visibility", vis2), ("template_name", .str template_name)])]
      show dumps (.obj (sortByKey (canonPairs _))) = dumps (.obj (sortByKey (canonPairs _)))
      simp only [canonPairs]
      rw [h1, h2]
    rw [hd]
  have hfirst : generate_pdf_with_cache gen (fun _ => none) cv1 vis1 template_name =
      ((gen cv1 vis1 template_name, false),
       PdfCache.set (fun _ => none) (generate_cache_key cv1 vis1 template_name)
         (gen cv1 vis1 template_name)) := by
    unfold generate_pdf_with_cache
    rfl
  have hstored : (generate_pdf_with_cache gen (fun _ => none) cv1 vis1 template_name).2
      (generate_cache_key cv1 vis1 template_name) =
      some (gen cv1 vis1 template_name) := by
    rw [hfirst]
    simp [PdfCache.set]
  refine ⟨hkey, by rw [hfirst], hstored, ?_⟩
  intro gen2
  have hlookup : (generate_pdf_with_cache gen (fun _ => none) cv1 vis1 template_name).2
      (generate_cache_key cv2 vis2 template_name) =
      some (gen cv1 vis1 template_name) := by
    rw [← hkey]
    exact hstored
  have hnonempty : (gen cv1 vis1 template_name).isEmpty = false := by
    cases h : gen cv1 vis1 template_name
    · exact absurd h hne
    · rfl
  have hhit := generate_pdf_with_cache_hit gen2
    (generate_pdf_with_cache gen (fun _ => none) cv1 vis1 template_name).2
    cv2 vis2 template_name (gen cv1 vis1 template_name) hlookup hnonempty
  exact ⟨by rw [hhit], by rw [hhit]⟩

/-- Witness for C3: two-key objects differing only in insertion order,
a generator returning the one-byte PDF `[37]`. -/
theorem C3_cache_key_and_caching_witness :
    generate_cache_key (.obj [("a", .num 1), ("b", .num 2)]) (.obj []) "modern-0" =
      generate_cache_key (.obj [("b", .num 2), ("a", .num 1)]) (.obj []) "modern-0" ∧
    (generate_pdf_with_cache (fun _ _ _ => [99])
        (generate_pdf_with_cache (fun _ _ _ => [37]) (fun _ => none)
          (.obj [("a", .num 1), ("b", .num 2)]) (.obj []) "modern-0").2
        (.obj [("b", .num 2), ("a", .num 1)]) (.obj []) "modern-0").1 =
      ([37], true) :=
  have h := C3_cache_key_and_caching
    (.obj [("a", .num 1), ("b", .num 2)]) (.obj [])
    (.obj [("b", .num 2), ("a", .num 1)]) (.obj []) "modern-0"
    (fun _ _ _ => [37]) (by rfl) rfl (by simp)
  ⟨h.1, (h.2.2.2 (fun _ _ _ => [99])).1⟩

end CVFlo
